import Mathlib

/-!
Verification of the connection/session management layer and quiz store of
the linera-quiz repository (React frontend `LineraAdapter` /
`ConnectionContext`, Vue frontend `quizStore`), as a shallow embedding.

Conventions of the embedding:
* opaque SDK handles (Client, Wallet, Faucet, Application, promises,
  callbacks) are represented by `Nat` identifiers;
* a JavaScript value that may be `null` is an `Option`;
* a JavaScript function that may `throw` returns `Except String α`,
  carrying the error message;
* asynchronous steps whose outcome depends on the outside world (the SDK,
  the network) are supplied by an explicit environment record, and the
  body of an `async` function is executed atomically over it;
* real-time waits (`setTimeout`) are recorded as data (delays in ms), not
  executed.
-/

/-- Does the character list start with `pat`? -/
def charsStartWith : List Char → List Char → Bool
  | [], _ => true
  | _ :: _, [] => false
  | p :: ps, c :: cs => p = c && charsStartWith ps cs

/-- Does `pat` occur contiguously in the character list? -/
def charsOccur (pat : List Char) : List Char → Bool
  | [] => charsStartWith pat []
  | c :: cs => charsStartWith pat (c :: cs) || charsOccur pat cs

/-- JavaScript `s.includes(pat)`: `pat` occurs contiguously in `s`. -/
def stringIncludes (s pat : String) : Bool :=
  charsOccur pat.data s.data

namespace LineraAdapter

/-- `LineraProvider` from src/react-frontend/src/providers/LineraAdapter.ts:
`{ client, wallet, faucet, address, chainId }`, with SDK handles as ids. -/
structure LineraProvider where
  client : Nat
  wallet : Nat
  faucet : Nat
  address : String
  chainId : String
deriving DecidableEq, Repr

/-- The private mutable fields of the `LineraAdapter` class.
`wasmInitStarted` models `wasmInitPromise !== null`, `initDone` models the
source field `isInitialized`, `callbacks` models
`onConnectionChangeCallbacks` (a list of callback ids in registration
order). -/
structure AdapterState where
  provider : Option LineraProvider
  application : Option Nat
  wasmInitStarted : Bool
  connectPromise : Option Nat
  callbacks : List Nat
  isConnecting : Bool
  currentWalletAddress : Option String
  initDone : Bool
deriving DecidableEq, Repr

/-- The adapter state right after construction (all fields null/false/empty). -/
def AdapterState.initial : AdapterState :=
  { provider := none, application := none, wasmInitStarted := false,
    connectPromise := none, callbacks := [], isConnecting := false,
    currentWalletAddress := none, initDone := false }

/-- Outcome of a call to `connect`, distinguishing the three return paths of
the source: the early `return this.provider`, the early
`return this.connectPromise`, and running the handshake to completion
(success or the wrapped error thrown from the `catch` block). -/
inductive ConnectOutcome where
  | reusedProvider (p : LineraProvider)
  | joinedInflight (pid : Nat)
  | ok (p : LineraProvider)
  | failed (msg : String)
deriving DecidableEq, Repr

/-- Constructor/SDK calls performed by one call to `connect`:
how many `new Faucet`, `faucet.createWallet()`, `faucet.claimChain(...)`,
`new DynamicSigner`, `new Client` completed, and which
connection-change callbacks were invoked (in order). -/
structure Effects where
  faucetsCreated : Nat
  walletsCreated : Nat
  chainsClaimed : Nat
  signersCreated : Nat
  clientsCreated : Nat
  callbacksInvoked : List Nat
deriving DecidableEq, Repr

/-- No SDK objects created, no callbacks invoked. -/
def Effects.nil : Effects := ⟨0, 0, 0, 0, 0, []⟩

/-- Environment for one handshake attempt: the results of the awaited SDK
steps, in source order. `wasmInitError = some msg` means awaiting
`initLinera()` rejects with `msg`. `callbackThrows cb = some m` means the
connection-change callback `cb` throws `m` when invoked. -/
structure HandshakeEnv where
  wasmInitError : Option String
  faucetResult : Except String Nat
  walletResult : Except String Nat
  claimResult : Except String String
  signerResult : Except String Nat
  clientResult : Except String Nat
  callbackThrows : Nat → Option String

/-- An environment in which every handshake step succeeds. -/
def HandshakeEnv.allOk : HandshakeEnv :=
  { wasmInitError := none, faucetResult := .ok 100, walletResult := .ok 101,
    claimResult := .ok "chain-1", signerResult := .ok 102,
    clientResult := .ok 103, callbackThrows := fun _ => none }

/-- The tolerated wasm re-initialization error (LineraAdapter.ts line 72). -/
def storageAlreadyInit (msg : String) : Bool :=
  stringIncludes msg "storage is already initialized"

/-- `this.onConnectionChangeCallbacks.forEach(callback => callback())`
(LineraAdapter.ts line 100): there is no try/catch here, so a throwing
callback stops the iteration and its error propagates out of the async
body. Returns the callbacks actually invoked (in order) and the
propagated error, if any. -/
def runChangeCallbacks (throws : Nat → Option String) :
    List Nat → List Nat × Option String
  | [] => ([], none)
  | cb :: rest =>
    match throws cb with
    | some m => ([cb], some m)
    | none =>
      let r := runChangeCallbacks throws rest
      (cb :: r.1, r.2)

/-- The handshake statements after wasm initialization
(LineraAdapter.ts lines 81-102): `new Faucet`, `createWallet`,
`claimChain`, `new DynamicSigner`, `new Client`, then the assignment to
`this.provider`/`this.isInitialized` and the callback broadcast, each step
short-circuiting on a thrown error. -/
def bodyAfterWasm (s : AdapterState) (addr : String) (env : HandshakeEnv) :
    AdapterState × Except String LineraProvider × Effects :=
  match env.faucetResult with
  | .error m => (s, .error m, ⟨0, 0, 0, 0, 0, []⟩)
  | .ok faucetId =>
    match env.walletResult with
    | .error m => (s, .error m, ⟨1, 0, 0, 0, 0, []⟩)
    | .ok walletId =>
      match env.claimResult with
      | .error m => (s, .error m, ⟨1, 1, 0, 0, 0, []⟩)
      | .ok chainId =>
        match env.signerResult with
        | .error m => (s, .error m, ⟨1, 1, 1, 0, 0, []⟩)
        | .ok _signerId =>
          match env.clientResult with
          | .error m => (s, .error m, ⟨1, 1, 1, 1, 0, []⟩)
          | .ok clientId =>
            let provider : LineraProvider :=
              { client := clientId, wallet := walletId, faucet := faucetId,
                address := addr, chainId := chainId }
            let s1 := { s with provider := some provider, initDone := true }
            match runChangeCallbacks env.callbackThrows s1.callbacks with
            | (invoked, some m) => (s1, .error m, ⟨1, 1, 1, 1, 1, invoked⟩)
            | (invoked, none) => (s1, .ok provider, ⟨1, 1, 1, 1, 1, invoked⟩)

/-- The async IIFE assigned to `this.connectPromise`
(LineraAdapter.ts lines 63-103): memoized wasm initialization with the
`storage is already initialized` tolerance, then the handshake. -/
def runConnectBody (s : AdapterState) (addr : String) (env : HandshakeEnv) :
    AdapterState × Except String LineraProvider × Effects :=
  let s1 := { s with wasmInitStarted := true }
  match env.wasmInitError with
  | some msg =>
    if storageAlreadyInit msg then bodyAfterWasm s1 addr env
    else (s1, .error msg, Effects.nil)
  | none => bodyAfterWasm s1 addr env

/-- `connect` after the two dedup checks (LineraAdapter.ts lines 51-122):
a non-null `connectPromise` is joined; otherwise the try block marks the
adapter connecting, runs the handshake body, and the catch/finally blocks
clean up as in the source. `freshPid` is the id of the newly created
promise. -/
def connectStart (s : AdapterState) (addr : String) (env : HandshakeEnv)
    (freshPid : Nat) : AdapterState × ConnectOutcome × Effects :=
  match s.connectPromise with
  | some pid => (s, .joinedInflight pid, Effects.nil)
  | none =>
    let s1 := { s with isConnecting := true,
                       currentWalletAddress := some addr,
                       connectPromise := some freshPid }
    match runConnectBody s1 addr env with
    | (sb, .ok p, eff) =>
      ({ sb with connectPromise := none, isConnecting := false }, .ok p, eff)
    | (sb, .error msg, eff) =>
      ({ sb with currentWalletAddress := none, provider := none,
                 application := none, connectPromise := none,
                 isConnecting := false },
       .failed ("Failed to connect to Linera network: " ++ msg), eff)

/-- `LineraAdapter.connect` (LineraAdapter.ts lines 38-123). `addr` is
`dynamicWallet.address` (the dead `if (!dynamicWallet)` check cannot fire
once `.address` has been read, so the wallet is modelled by its address). -/
def connect (s : AdapterState) (addr : String) (env : HandshakeEnv)
    (freshPid : Nat) : AdapterState × ConnectOutcome × Effects :=
  match s.provider with
  | some p =>
    if s.currentWalletAddress = some addr then (s, .reusedProvider p, Effects.nil)
    else connectStart s addr env freshPid
  | none => connectStart s addr env freshPid

/-- `LineraAdapter.getInstance` (LineraAdapter.ts lines 33-36) over the
static `instance` field; `fresh` is the id of the instance a `new` would
allocate. -/
def getInstance (instanceField : Option Nat) (fresh : Nat) : Option Nat × Nat :=
  match instanceField with
  | some a => (some a, a)
  | none => (some fresh, fresh)

/-- Result of `getConnectionStatus` (LineraAdapter.ts lines 243-251). -/
inductive ConnStatus where
  | disconnected
  | connecting
  | connected
deriving DecidableEq, Repr

/-- `LineraAdapter.getConnectionStatus` (LineraAdapter.ts lines 243-251). -/
def getConnectionStatus (s : AdapterState) : ConnStatus :=
  if s.isConnecting || s.connectPromise.isSome then .connecting
  else if s.provider.isSome && s.initDone then .connected
  else .disconnected

/-- A parsed GraphQL response: `errors` is absent, or a (possibly empty)
array of error messages; the payload is abstracted to a string. -/
structure GraphQLResponse where
  errors : Option (List String)
  payload : String
deriving DecidableEq, Repr

/-- `LineraAdapter.queryApplication` (LineraAdapter.ts lines 137-158),
given the parsed response the application returns for the query: throws
when no application is set, throws the joined messages when the response
carries a non-empty `errors` array, and otherwise returns the response.
The method writes no field, so the state is passed through. -/
def queryApplication (s : AdapterState) (response : GraphQLResponse) :
    AdapterState × Except String GraphQLResponse :=
  match s.application with
  | none => (s, .error "Application not set")
  | some _ =>
    match response.errors with
    | some errs =>
      if errs.length > 0 then
        (s, .error ("Linera query error: " ++ String.intercalate "\n" errs))
      else (s, .ok response)
    | none => (s, .ok response)

/-- `LineraAdapter.mutateApplication` (LineraAdapter.ts lines 160-182):
identical to `queryApplication` except for the error prefix (mutations are
sent through `Application.query` as well). -/
def mutateApplication (s : AdapterState) (response : GraphQLResponse) :
    AdapterState × Except String GraphQLResponse :=
  match s.application with
  | none => (s, .error "Application not set")
  | some _ =>
    match response.errors with
    | some errs =>
      if errs.length > 0 then
        (s, .error ("Linera mutation error: " ++ String.intercalate "\n" errs))
      else (s, .ok response)
    | none => (s, .ok response)

end LineraAdapter

namespace ConnectionContext

/-- The error-message test of the retry branch
(ConnectionContext.tsx lines 367-370):
`errorMessage.includes('Connection') || errorMessage.includes('connection')`. -/
def isConnectionErrorMsg (msg : String) : Bool :=
  stringIncludes msg "Connection" || stringIncludes msg "connection"

/-- `queryApplication` of ConnectionContext.tsx (lines 314-383), driven by
`exec`, which gives the outcome of the whole try block on each attempt
(indexed by `retryCount`). Returns the final outcome, the number of
attempts performed, and the `setTimeout` delays (in ms) waited before each
retry, in order: on a connection-flavoured error with `retryCount < 2` the
code waits `1000 * (retryCount + 1)` ms and recurses with
`retryCount + 1`; otherwise it rethrows. -/
def queryApplication (exec : Nat → Except String String) (retryCount : Nat) :
    Except String String × Nat × List Nat :=
  match exec retryCount with
  | .ok r => (.ok r, 1, [])
  | .error msg =>
    if h : isConnectionErrorMsg msg && retryCount < 2 then
      let rest := queryApplication exec (retryCount + 1)
      (rest.1, rest.2.1 + 1, 1000 * (retryCount + 1) :: rest.2.2)
    else (.error msg, 1, [])
termination_by 2 - retryCount
decreasing_by
  simp at h
  omega

/-- A `NewBlock` notification payload (ConnectionContext.tsx lines 13-17);
`event_stream` is irrelevant to the handler and omitted. -/
structure Block where
  height : Int
  hash : String
deriving DecidableEq, Repr

/-- The refs used by the notification handler
(ConnectionContext.tsx lines 77-81): registered new-block callback ids (in
registration order), the last processed block height, and the timestamp of
the last processed block (ms). -/
structure NotifState where
  newBlockCallbacks : List Nat
  lastBlockHeight : Option Int
  lastBlockProcessTime : Option Nat
deriving DecidableEq, Repr

/-- `timeDiff` (ConnectionContext.tsx lines 255-257): `none` stands for
`Infinity`. The source guards with JavaScript truthiness
(`lastBlockProcessTime.current ? ... : Infinity`), so a stored timestamp
of `0` also yields `Infinity`. -/
def timeDiff (last : Option Nat) (receiveTime : Nat) : Option Nat :=
  match last with
  | some t => if t = 0 then none else some (((receiveTime : Int) - t).natAbs)
  | none => none

/-- The processing condition of `handleNotification`
(ConnectionContext.tsx line 260):
`timeDiff > 100 || lastBlockProcessTime.current === null`. -/
def shouldProcess (s : NotifState) (receiveTime : Nat) : Bool :=
  (match timeDiff s.lastBlockProcessTime receiveTime with
   | none => true
   | some d => 100 < d) || s.lastBlockProcessTime = none

/-- The callback broadcast of `handleNotification`
(ConnectionContext.tsx lines 266-272): each callback is invoked inside
`try { callback() } catch { /* ignored */ }`, so a throwing callback is
still invoked and the iteration continues with the remaining callbacks.
Returns every invoked callback id paired with whether it threw. -/
def runNewBlockCallbacks (throws : Nat → Bool) :
    List Nat → List (Nat × Bool)
  | [] => []
  | cb :: rest => (cb, throws cb) :: runNewBlockCallbacks throws rest

/-- `handleNotification` (ConnectionContext.tsx lines 247-277): `notif` is
`notification?.reason?.NewBlock` (absent when the notification carries no
`NewBlock` reason), `receiveTime` is `Date.now()`. Returns the updated
refs and the invoked callbacks. -/
def handleNotification (s : NotifState) (notif : Option Block)
    (receiveTime : Nat) (throws : Nat → Bool) :
    NotifState × List (Nat × Bool) :=
  match notif with
  | none => (s, [])
  | some newBlock =>
    if shouldProcess s receiveTime then
      ({ s with lastBlockHeight := some newBlock.height,
                lastBlockProcessTime := some receiveTime },
       runNewBlockCallbacks throws s.newBlockCallbacks)
    else (s, [])

/-- `onNewBlock` (ConnectionContext.tsx lines 299-301): appends the
callback to the registration list. -/
def onNewBlock (s : NotifState) (cb : Nat) : NotifState :=
  { s with newBlockCallbacks := s.newBlockCallbacks ++ [cb] }

end ConnectionContext

namespace QuizStore

/-- Question type tag: `'single' | 'multiple'`
(src/front-end/src/stores/quizStore.ts lines 5-12). -/
inductive QType where
  | single
  | multiple
deriving DecidableEq, Repr

/-- `Question` (quizStore.ts lines 5-12); the source field `type` is
rendered `qtype`. -/
structure Question where
  id : String
  text : String
  points : Int
  options : List String
  qtype : QType
  correctAnswers : List Int
deriving DecidableEq, Repr

/-- `Quiz` (quizStore.ts lines 14-21); `createdAt` is a ms timestamp. -/
structure Quiz where
  id : String
  title : String
  description : String
  creatorId : String
  questions : List Question
  createdAt : Nat
deriving DecidableEq, Repr

/-- `QuizSubmission` (quizStore.ts lines 23-31). -/
structure QuizSubmission where
  id : String
  quizId : String
  userId : String
  userName : String
  score : Int
  timeTaken : Int
  submittedAt : Nat
deriving DecidableEq, Repr

/-- One entry of the `answers` argument of `submitQuiz`
(quizStore.ts line 98). -/
structure AnswerInput where
  questionId : String
  selectedAnswers : List Int
  timeTaken : Int
deriving DecidableEq, Repr

/-- `createQuiz` (quizStore.ts lines 60-73): appends the new quiz and
persists with `localStorage.setItem('quizzes', ...)`. `newId` is the
`uuidv4()` value, `now` the current time. Returns the updated quiz list,
the created quiz, and the keys of the localStorage writes performed. -/
def createQuiz (quizzes : List Quiz) (title description creatorId : String)
    (newId : String) (now : Nat) : List Quiz × Quiz × List String :=
  let newQuiz : Quiz :=
    { id := newId, title := title, description := description,
      creatorId := creatorId, questions := [], createdAt := now }
  (quizzes ++ [newQuiz], newQuiz, ["quizzes"])

/-- The correctness check of one answer (quizStore.ts lines 111-120):
single-choice needs exactly one selected answer that is correct;
multiple-choice needs the selected set to coincide with the correct set
(mutual inclusion via `every`/`includes`). -/
def answerCorrect (q : Question) (ans : AnswerInput) : Bool :=
  match q.qtype with
  | .single =>
    match ans.selectedAnswers with
    | [a] => q.correctAnswers.contains a
    | _ => false
  | .multiple =>
    q.correctAnswers.all (fun ca => ans.selectedAnswers.contains ca) &&
      ans.selectedAnswers.all (fun sa => q.correctAnswers.contains sa)

/-- The time-weighted score of a correct answer (quizStore.ts lines
123-126): `Math.round(points * (1 - Math.min(timeTaken / 30, 1)))`,
modelled over the rationals. -/
def weightedScore (points : Int) (timeTaken : Int) : Int :=
  round ((points : ℚ) * (1 - min ((timeTaken : ℚ) / 30) 1))

/-- The scoring fold of `submitQuiz` (quizStore.ts lines 103-129):
accumulates `(totalScore, totalTime)` over the answers; answers whose
question is not found contribute nothing. -/
def scoreAnswers (questions : List Question) (answers : List AnswerInput) :
    Int × Int :=
  answers.foldl
    (fun acc ans =>
      match questions.find? (fun q => q.id = ans.questionId) with
      | none => acc
      | some q =>
        let acc1 := (acc.1, acc.2 + ans.timeTaken)
        if answerCorrect q ans then
          (acc1.1 + weightedScore q.points ans.timeTaken, acc1.2)
        else acc1)
    (0, 0)

/-- `submitQuiz` (quizStore.ts lines 94-144): throws `Quiz not found` when
no quiz matches, otherwise scores the answers, appends the submission and
persists with `localStorage.setItem('submissions', ...)`. Returns the
updated submission list, the created submission, and the keys of the
localStorage writes performed. -/
def submitQuiz (quizzes : List Quiz) (submissions : List QuizSubmission)
    (quizId userId userName : String) (answers : List AnswerInput)
    (newId : String) (now : Nat) :
    Except String (List QuizSubmission × QuizSubmission × List String) :=
  match quizzes.find? (fun q => q.id = quizId) with
  | none => .error "Quiz not found"
  | some quiz =>
    let totals := scoreAnswers quiz.questions answers
    let submission : QuizSubmission :=
      { id := newId, quizId := quizId, userId := userId, userName := userName,
        score := totals.1, timeTaken := totals.2, submittedAt := now }
    .ok (submissions ++ [submission], submission, ["submissions"])

/-- The comparator of `getQuizRankings` (quizStore.ts lines 150-155) as a
total preorder: `a` sorts before-or-equal `b` iff the comparator returns
a non-positive number, i.e. higher score first, ties by lower `timeTaken`
first. -/
def rankLe (a b : QuizSubmission) : Bool :=
  if a.score = b.score then a.timeTaken ≤ b.timeTaken else b.score < a.score

/-- `rankLe` as a relation, for the sort. -/
def RankRel (a b : QuizSubmission) : Prop := rankLe a b = true

instance : DecidableRel RankRel := fun a b => by
  unfold RankRel
  infer_instance

instance : IsTotal QuizSubmission RankRel where
  total a b := by
    simp only [RankRel, rankLe]
    split_ifs with h1 h2 <;> simp_all
    all_goals omega

instance : IsTrans QuizSubmission RankRel where
  trans a b c hab hbc := by
    simp only [RankRel, rankLe] at *
    split_ifs at * <;> simp_all
    all_goals omega

/-- `.map((sub, index) => ({ ...sub, rank: index + 1 }))`
(quizStore.ts lines 156-159), keeping the submission and its 1-based rank;
`i` is the number of entries already emitted. -/
def withRanks : List QuizSubmission → Nat → List (QuizSubmission × Nat)
  | [], _ => []
  | sub :: rest, i => (sub, i + 1) :: withRanks rest (i + 1)

/-- `getQuizRankings` (quizStore.ts lines 147-160): filter by `quizId`,
sort by the comparator (JavaScript `Array.prototype.sort` is stable and
sorts by the comparator order; modelled by a stable insertion sort), then
attach 1-based ranks. -/
def getQuizRankings (submissions : List QuizSubmission) (quizId : String) :
    List (QuizSubmission × Nat) :=
  withRanks
    (List.insertionSort RankRel
      (submissions.filter (fun sub => sub.quizId = quizId)))
    0

end QuizStore

namespace LineraAdapter

/-- The provider produced by a successful handshake of wallet `0xabc`
under `HandshakeEnv.allOk`. -/
def pFix : LineraProvider :=
  { client := 103, wallet := 101, faucet := 100, address := "0xabc",
    chainId := "chain-1" }

/-- An adapter state connected with wallet `0xabc`, no in-flight connect. -/
def sConnected : AdapterState :=
  { provider := some pFix, application := some 1, wasmInitStarted := true,
    connectPromise := none, callbacks := [7, 8], isConnecting := false,
    currentWalletAddress := some "0xabc", initDone := true }

/-- An adapter state while a handshake promise (id 7) is pending and no
provider is stored yet. -/
def sInflight : AdapterState :=
  { provider := none, application := none, wasmInitStarted := true,
    connectPromise := some 7, callbacks := [], isConnecting := true,
    currentWalletAddress := some "0xabc", initDone := false }

/-- The transient adapter state between the handshake body storing the
provider and the `finally` block clearing `connectPromise` (promise id 7). -/
def sInflightDone : AdapterState :=
  { provider := some pFix, application := none, wasmInitStarted := true,
    connectPromise := some 7, callbacks := [], isConnecting := true,
    currentWalletAddress := some "0xabc", initDone := true }

/-- An environment whose `new Faucet(...)` call rejects. -/
def envFaucetFail : HandshakeEnv :=
  { HandshakeEnv.allOk with faucetResult := .error "boom" }

/-- The adapter state left by a `connect` from `AdapterState.initial`
whose faucet construction fails. -/
def sAfterFaucetFail : AdapterState :=
  { provider := none, application := none, wasmInitStarted := true,
    connectPromise := none, callbacks := [], isConnecting := false,
    currentWalletAddress := none, initDone := false }

/-- A response with no `errors` field. -/
def respOk : GraphQLResponse := { errors := none, payload := "data" }

end LineraAdapter

namespace ConnectionContext

/-- An attempt oracle that fails every attempt with a connection-flavoured
message. -/
def execConnFail : Nat → Except String String := fun n =>
  match n with
  | 0 => .error "Connection reset A"
  | 1 => .error "Connection reset B"
  | _ => .error "Connection reset C"

/-- An attempt oracle that fails with a message not mentioning a
connection. -/
def execPlainFail : Nat → Except String String := fun _ => .error "bad query"

/-- Refs before any block was processed, three registered callbacks. -/
def sFirstBlock : NotifState :=
  { newBlockCallbacks := [4, 5, 6], lastBlockHeight := none,
    lastBlockProcessTime := none }

/-- Refs after a block was processed at time 500, two registered
callbacks. -/
def sRecent : NotifState :=
  { newBlockCallbacks := [1, 2], lastBlockHeight := some 10,
    lastBlockProcessTime := some 500 }

/-- Refs after a block was processed at time 0 (the timestamp JavaScript
truthiness treats as unset). -/
def sZeroTime : NotifState :=
  { newBlockCallbacks := [1], lastBlockHeight := some 10,
    lastBlockProcessTime := some 0 }

/-- A block at height 11. -/
def b1 : Block := { height := 11, hash := "h11" }

end ConnectionContext

namespace QuizStore

/-- A quiz with id `quiz-1` and no questions. -/
def qFix : Quiz :=
  { id := "quiz-1", title := "T", description := "D", creatorId := "alice",
    questions := [], createdAt := 0 }

end QuizStore

section C1

open LineraAdapter

/-- C1 (counterexample): the claim says a `connect` call made while
`connectPromise` is non-null returns the same in-flight promise. In the
transient state where the handshake body has already stored the provider
but the `finally` block has not yet cleared `connectPromise`
(`sInflightDone`, promise id 7), a call passing the connected wallet hits
the `this.provider && this.currentWalletAddress === walletAddress` check
first (LineraAdapter.ts line 45) and returns the provider, not the
in-flight promise. -/
theorem connect_inflight_counterexample :
    sInflightDone.connectPromise = some 7 ∧
    (connect sInflightDone "0xabc" HandshakeEnv.allOk 9).2.1
        = ConnectOutcome.reusedProvider pFix ∧
    (connect sInflightDone "0xabc" HandshakeEnv.allOk 9).2.1
        ≠ ConnectOutcome.joinedInflight 7 := by
  refine ⟨rfl, rfl, ?_⟩
  decide

/-- C1 (amended): a `connect` call made while `connectPromise` is non-null
either returns the same in-flight promise or, when the handshake has
already stored a provider and the call passes the connected wallet
address, returns that provider; in both cases no new Faucet, wallet,
chain claim, signer or Client is created, no callback fires, and the
adapter state is unchanged, regardless of the wallet passed. -/
theorem connect_inflight_dedup (s : AdapterState) (addr : String)
    (env : HandshakeEnv) (pid q : Nat) (h : s.connectPromise = some q) :
    ((connect s addr env pid).2.1 = ConnectOutcome.joinedInflight q
      ∨ ∃ p, s.provider = some p ∧ s.currentWalletAddress = some addr
          ∧ (connect s addr env pid).2.1 = ConnectOutcome.reusedProvider p)
    ∧ (connect s addr env pid).2.2 = Effects.nil
    ∧ (connect s addr env pid).1 = s := by
  cases hp : s.provider with
  | none => simp [connect, hp, connectStart, h]
  | some p =>
    by_cases ha : s.currentWalletAddress = some addr
    · simp [connect, hp, ha]
    · simp [connect, hp, ha, connectStart, h]

/-- C1 (witness): the amended theorem at `sInflight` (promise id 7, no
provider yet) with a different wallet address. -/
theorem connect_inflight_dedup_witness :
    ((connect sInflight "0xother" HandshakeEnv.allOk 9).2.1
        = ConnectOutcome.joinedInflight 7
      ∨ ∃ p, sInflight.provider = some p
          ∧ sInflight.currentWalletAddress = some "0xother"
          ∧ (connect sInflight "0xother" HandshakeEnv.allOk 9).2.1
              = ConnectOutcome.reusedProvider p)
    ∧ (connect sInflight "0xother" HandshakeEnv.allOk 9).2.2 = Effects.nil
    ∧ (connect sInflight "0xother" HandshakeEnv.allOk 9).1 = sInflight :=
  connect_inflight_dedup sInflight "0xother" HandshakeEnv.allOk 9 7 rfl

end C1

section C2

open LineraAdapter

/-- C2: calling `connect` with the currently connected wallet address
while a provider is set is idempotent: it returns the existing provider
object, performs no SDK calls and no callback invocations, and leaves the
whole adapter state (provider, application, wallet address, callbacks)
unchanged. -/
theorem connect_idempotent_same_wallet (s : AdapterState)
    (p : LineraProvider) (addr : String) (env : HandshakeEnv) (pid : Nat)
    (hp : s.provider = some p) (ha : s.currentWalletAddress = some addr) :
    connect s addr env pid = (s, ConnectOutcome.reusedProvider p, Effects.nil) := by
  simp only [connect, hp, ha, if_pos]

/-- C2 (witness): the theorem at the connected fixture state. -/
theorem connect_idempotent_witness :
    connect sConnected "0xabc" HandshakeEnv.allOk 9
      = (sConnected, ConnectOutcome.reusedProvider pFix, Effects.nil) :=
  connect_idempotent_same_wallet sConnected pFix "0xabc" HandshakeEnv.allOk 9
    rfl rfl

end C2

section C3

open ConnectionContext

/-- Helper: at `retryCount = 2` the retry condition is false, so exactly
one attempt is made. -/
theorem qa_attempts_at_two (exec : Nat → Except String String) :
    (queryApplication exec 2).2.1 = 1 := by
  unfold queryApplication
  cases h2 : exec 2 with
  | ok r => rfl
  | error m => simp

/-- Helper: starting at `retryCount = 1` at most two attempts are made. -/
theorem qa_attempts_le_two (exec : Nat → Except String String) :
    (queryApplication exec 1).2.1 ≤ 2 := by
  unfold queryApplication
  cases h1 : exec 1 with
  | ok r => simp
  | error m =>
    split
    · simp
    · split <;> simp [qa_attempts_at_two]

/-- Helper: at `retryCount = 2` any failure is returned as is, with one
attempt and no delay. -/
theorem qa_two_fail (exec : Nat → Except String String) (m2 : String)
    (h2 : exec 2 = Except.error m2) :
    queryApplication exec 2 = (Except.error m2, 1, []) := by
  unfold queryApplication
  simp [h2]

/-- Helper: at `retryCount = 1`, a connection error retries once after a
2000 ms delay and returns the outcome of attempt 2. -/
theorem qa_one_fail (exec : Nat → Except String String) (m1 m2 : String)
    (h1 : exec 1 = Except.error m1) (h2 : exec 2 = Except.error m2)
    (hc1 : isConnectionErrorMsg m1 = true) :
    queryApplication exec 1 = (Except.error m2, 2, [2000]) := by
  unfold queryApplication
  simp [h1, hc1, qa_two_fail exec m2 h2]

/-- C3: `queryApplication` makes at most 3 attempts in total; an error
whose message does not mention a connection is rethrown immediately after
a single attempt with no retry delay; and when all three attempts fail
with connection-flavoured errors the third error is rethrown after delays
of 1000 ms and 2000 ms before the two retries. -/
theorem queryApplication_retry_spec (exec : Nat → Except String String) :
    (queryApplication exec 0).2.1 ≤ 3
    ∧ (∀ msg, exec 0 = Except.error msg → isConnectionErrorMsg msg = false →
        queryApplication exec 0 = (Except.error msg, 1, []))
    ∧ (∀ m0 m1 m2, exec 0 = Except.error m0 → exec 1 = Except.error m1 →
        exec 2 = Except.error m2 →
        isConnectionErrorMsg m0 = true → isConnectionErrorMsg m1 = true →
        queryApplication exec 0 = (Except.error m2, 3, [1000, 2000])) := by
  refine ⟨?_, ?_, ?_⟩
  · unfold queryApplication
    cases h0 : exec 0 with
    | ok r => simp
    | error m =>
      have hle := qa_attempts_le_two exec
      split
      · simp
      · split
        · simp
          omega
        · simp
  · intro msg h0 hmsg
    unfold queryApplication
    simp [h0, hmsg]
  · intro m0 m1 m2 h0 h1 h2 hc0 hc1
    unfold queryApplication
    simp [h0, hc0, qa_one_fail exec m1 m2 h1 h2 hc1]

/-- C3 (witness): the theorem at the two fixture oracles: a
non-connection error is rethrown at once; three connection errors exhaust
the retries and the last error is rethrown. -/
theorem queryApplication_retry_witness :
    queryApplication execPlainFail 0 = (Except.error "bad query", 1, [])
    ∧ queryApplication execConnFail 0
        = (Except.error "Connection reset C", 3, [1000, 2000]) :=
  ⟨(queryApplication_retry_spec execPlainFail).2.1 "bad query" rfl (by decide),
   (queryApplication_retry_spec execConnFail).2.2 "Connection reset A"
     "Connection reset B" "Connection reset C" rfl rfl rfl (by decide)
     (by decide)⟩

end C3

section C4

open ConnectionContext

/-- Helper: the guarded broadcast visits every callback in order, pairing
it with its own throw flag; a throw never removes later entries. -/
theorem runNewBlockCallbacks_eq_map (throws : Nat → Bool) :
    ∀ l : List Nat,
      runNewBlockCallbacks throws l = l.map (fun cb => (cb, throws cb))
  | [] => rfl
  | cb :: rest => by
    simp [runNewBlockCallbacks, runNewBlockCallbacks_eq_map throws rest]

/-- C4: when a NewBlock notification is processed (not skipped by the
debounce window), every callback registered via `onNewBlock` is invoked
exactly once, in registration order, each inside its own try/catch, so a
throwing callback (its throw flag in the result) does not prevent the
remaining callbacks from being invoked — the invocation list is the full
registration list for every `throws` behaviour. -/
theorem handleNotification_broadcast (s : NotifState) (b : Block) (t : Nat)
    (throws : Nat → Bool) (h : shouldProcess s t = true) :
    (handleNotification s (some b) t throws).2
      = s.newBlockCallbacks.map (fun cb => (cb, throws cb)) := by
  simp [handleNotification, h, runNewBlockCallbacks_eq_map]

/-- C4 (witness): the theorem at the first-block fixture where callback 5
throws: callbacks 4, 5, 6 are all invoked, in order. -/
theorem handleNotification_broadcast_witness :
    (handleNotification sFirstBlock (some b1) 1000 (fun n => n == 5)).2
      = sFirstBlock.newBlockCallbacks.map (fun cb => (cb, cb == 5)) :=
  handleNotification_broadcast sFirstBlock b1 1000 (fun n => n == 5)
    (by decide)

end C4

section C5

open ConnectionContext

/-- C5 (counterexample): the claim says a NewBlock received at most 100 ms
after the previously processed block is never delivered and the refs stay
unchanged. The source computes the time difference with JavaScript
truthiness (`lastBlockProcessTime.current ? ... : Infinity`,
ConnectionContext.tsx lines 255-257), so a stored timestamp of `0` is
treated as unset: a block received at time 50, only 50 ms after a block
processed at time 0, is processed — the callback fires and both refs are
updated. -/
theorem debounce_counterexample :
    ((50 : Int) - (0 : Int)).natAbs ≤ 100
    ∧ sZeroTime.lastBlockProcessTime = some 0
    ∧ (handleNotification sZeroTime (some b1) 50 (fun _ => false)).2 ≠ []
    ∧ (handleNotification sZeroTime (some b1) 50 (fun _ => false)).1
        ≠ sZeroTime := by
  decide

/-- C5 (amended): provided the previously processed block's timestamp is
nonzero (JavaScript truthiness treats a zero timestamp as unset), a
NewBlock received 100 ms or less after it is skipped: no callback is
invoked and `lastBlockHeight`/`lastBlockProcessTime` are unchanged; and
the first block ever received (no previous process time) is always
processed, updating both refs and invoking the callbacks. -/
theorem debounce_amended (s : NotifState) (b : Block) (r t : Nat)
    (throws : Nat → Bool) :
    (s.lastBlockProcessTime = some t → t ≠ 0 →
        ((r : Int) - (t : Int)).natAbs ≤ 100 →
        handleNotification s (some b) r throws = (s, []))
    ∧ (s.lastBlockProcessTime = none →
        handleNotification s (some b) r throws
          = ({ s with lastBlockHeight := some b.height,
                      lastBlockProcessTime := some r },
             runNewBlockCallbacks throws s.newBlockCallbacks)) := by
  constructor
  · intro h1 h2 h3
    have hsp : shouldProcess s r = false := by
      simp [shouldProcess, timeDiff, h1, h2]
      omega
    simp [handleNotification, hsp]
  · intro h1
    have hsp : shouldProcess s r = true := by
      simp [shouldProcess, timeDiff, h1]
    simp [handleNotification, hsp]

/-- C5 (witness): the amended theorem at the fixtures: a block 50 ms after
one processed at time 500 is skipped; the very first block is processed. -/
theorem debounce_amended_witness :
    handleNotification sRecent (some b1) 550 (fun _ => false) = (sRecent, [])
    ∧ handleNotification sFirstBlock (some b1) 1000 (fun _ => false)
        = ({ sFirstBlock with lastBlockHeight := some b1.height,
                              lastBlockProcessTime := some 1000 },
           runNewBlockCallbacks (fun _ => false)
             sFirstBlock.newBlockCallbacks) :=
  ⟨(debounce_amended sRecent b1 550 500 (fun _ => false)).1 rfl (by decide)
      (by decide),
   (debounce_amended sFirstBlock b1 1000 0 (fun _ => false)).2 rfl⟩

end C5

section C6

open LineraAdapter

/-- C6: `getInstance` is a singleton accessor: whatever the static
`instance` field holds, a second call (on the field state left by the
first) returns the same instance as the first call, so all connection
state lives on one shared object. -/
theorem getInstance_singleton (instanceField : Option Nat) (f1 f2 : Nat) :
    (getInstance (getInstance instanceField f1).1 f2).2
      = (getInstance instanceField f1).2 := by
  cases instanceField <;> rfl

end C6

section C7

open QuizStore

/-- C7 (counterexample): the claim says no frontend operation writes quiz
or submission state to a local durable store, but the Vue store's
`createQuiz` (quizStore.ts line 71) persists the quiz list with
`localStorage.setItem('quizzes', ...)`: at a concrete call its
localStorage write list is `["quizzes"]`, not empty. -/
theorem quizStore_localStorage_counterexample :
    (createQuiz [] "T" "D" "alice" "quiz-1" 0).2.2 = ["quizzes"]
    ∧ (createQuiz [] "T" "D" "alice" "quiz-1" 0).2.2 ≠ ([] : List String) := by
  decide

/-- C7 (amended): in the React frontend durable quiz state is only
reached through the chain application, but the Vue frontend's mock store
does write to a local durable store: every `createQuiz` call performs
exactly one localStorage write under the key `quizzes`, and every
successful `submitQuiz` call performs exactly one localStorage write
under the key `submissions`. -/
theorem quizStore_localStorage_writes (quizzes : List Quiz)
    (subs : List QuizSubmission) (title descr creator qid uid uname nid : String)
    (answers : List AnswerInput) (now : Nat) :
    (createQuiz quizzes title descr creator nid now).2.2 = ["quizzes"]
    ∧ (∀ quiz, quizzes.find? (fun q => q.id = qid) = some quiz →
        ∃ res, submitQuiz quizzes subs qid uid uname answers nid now
            = Except.ok res ∧ res.2.2 = ["submissions"]) := by
  constructor
  · rfl
  · intro quiz hq
    simp [submitQuiz, hq]

/-- C7 (witness): the amended theorem at concrete inputs, with the
`submitQuiz` part discharged on the fixture quiz. -/
theorem quizStore_localStorage_writes_witness :
    (createQuiz [] "T" "D" "alice" "q9" 5).2.2 = ["quizzes"]
    ∧ ∃ res, submitQuiz [qFix] [] "quiz-1" "u" "U" [] "s1" 7
        = Except.ok res ∧ res.2.2 = ["submissions"] :=
  ⟨(quizStore_localStorage_writes [] [] "T" "D" "alice" "quiz-1" "u" "U" "q9"
      [] 5).1,
   (quizStore_localStorage_writes [qFix] [] "T" "D" "alice" "quiz-1" "u" "U"
      "s1" [] 7).2 qFix (by decide)⟩

end C7

section C8

open QuizStore

/-- Helper: dropping the ranks recovers the sorted list. -/
theorem withRanks_map_fst :
    ∀ (l : List QuizSubmission) (i : Nat), (withRanks l i).map Prod.fst = l
  | [], _ => rfl
  | sub :: rest, i => by
    simp [withRanks, withRanks_map_fst rest (i + 1)]

/-- Helper: the ranks are the consecutive integers starting at `i + 1`. -/
theorem withRanks_map_snd :
    ∀ (l : List QuizSubmission) (i : Nat),
      (withRanks l i).map Prod.snd = List.range' (i + 1) l.length
  | [], _ => by simp [withRanks]
  | sub :: rest, i => by
    simp [withRanks, withRanks_map_snd rest (i + 1), List.range'_succ]

/-- Helper: the comparator order implies the claimed order: higher score
first, ties by lower time taken. -/
theorem rankRel_implies (a b : QuizSubmission) (h : RankRel a b) :
    b.score < a.score ∨ (a.score = b.score ∧ a.timeTaken ≤ b.timeTaken) := by
  by_cases hs : a.score = b.score <;> simp [RankRel, rankLe, hs] at h <;>
    tauto

/-- C8: `getQuizRankings` returns exactly the submissions whose `quizId`
matches (a permutation of the filtered list), ordered by score descending
with ties broken by `timeTaken` ascending, and the assigned ranks are the
consecutive integers 1, 2, ... up to the number of matching submissions. -/
theorem getQuizRankings_spec (subs : List QuizSubmission) (qid : String) :
    List.Perm ((getQuizRankings subs qid).map Prod.fst)
        (subs.filter (fun sub => sub.quizId = qid))
    ∧ List.Pairwise
        (fun a b => b.score < a.score
          ∨ (a.score = b.score ∧ a.timeTaken ≤ b.timeTaken))
        ((getQuizRankings subs qid).map Prod.fst)
    ∧ (getQuizRankings subs qid).map Prod.snd
        = List.range' 1 (subs.filter (fun sub => sub.quizId = qid)).length := by
  refine ⟨?_, ?_, ?_⟩
  · rw [getQuizRankings, withRanks_map_fst]
    exact List.perm_insertionSort _ _
  · rw [getQuizRankings, withRanks_map_fst]
    exact (List.sorted_insertionSort RankRel _).imp
      (fun h => rankRel_implies _ _ h)
  · rw [getQuizRankings, withRanks_map_snd,
      (List.perm_insertionSort RankRel _).length_eq]

end C8

section C9

open LineraAdapter

/-- Helper: when `connectStart` reports a wrapped failure, the catch and
finally blocks have fully cleared the connection state. -/
theorem connectStart_failure (s : AdapterState) (addr : String)
    (env : HandshakeEnv) (pid : Nat) (s2 : AdapterState) (em : String)
    (eff : Effects)
    (h : connectStart s addr env pid = (s2, ConnectOutcome.failed em, eff)) :
    s2.provider = none ∧ s2.application = none
    ∧ s2.currentWalletAddress = none ∧ s2.connectPromise = none
    ∧ s2.isConnecting = false
    ∧ getConnectionStatus s2 = ConnStatus.disconnected
    ∧ ∃ msg, em = "Failed to connect to Linera network: " ++ msg := by
  cases hcp : s.connectPromise with
  | some p => simp [connectStart, hcp] at h
  | none =>
    simp only [connectStart, hcp] at h
    rcases hrb : runConnectBody
        { s with isConnecting := true, currentWalletAddress := some addr,
                 connectPromise := some pid } addr env with ⟨sb, res, effb⟩
    rw [hrb] at h
    cases res with
    | ok p => simp at h
    | error msg =>
      simp only [Prod.mk.injEq] at h
      obtain ⟨hs2, hem, _⟩ := h
      subst hs2
      refine ⟨rfl, rfl, rfl, rfl, rfl, by simp [getConnectionStatus], ?_⟩
      cases hem
      exact ⟨msg, rfl⟩

/-- C9: `connect` is atomic on failure: whenever it throws, the adapter is
fully disconnected — provider, application, currentWalletAddress and
connectPromise are null, `isConnecting` is false,
`getConnectionStatus` is `disconnected` — and the thrown error message is
the original error wrapped in `Failed to connect to Linera network: `. -/
theorem connect_failure_cleanup (s : AdapterState) (addr : String)
    (env : HandshakeEnv) (pid : Nat) (s2 : AdapterState) (em : String)
    (eff : Effects)
    (h : connect s addr env pid = (s2, ConnectOutcome.failed em, eff)) :
    s2.provider = none ∧ s2.application = none
    ∧ s2.currentWalletAddress = none ∧ s2.connectPromise = none
    ∧ s2.isConnecting = false
    ∧ getConnectionStatus s2 = ConnStatus.disconnected
    ∧ ∃ msg, em = "Failed to connect to Linera network: " ++ msg := by
  cases hp : s.provider with
  | none =>
    simp only [connect, hp] at h
    exact connectStart_failure s addr env pid s2 em eff h
  | some p =>
    by_cases ha : s.currentWalletAddress = some addr
    · simp only [connect, hp, ha, if_pos] at h
      simp at h
    · simp only [connect, hp, if_neg ha] at h
      exact connectStart_failure s addr env pid s2 em eff h

/-- C9 (witness): the theorem at a concrete failing run: connecting from
the pristine state with a faucet that rejects with `boom`. -/
theorem connect_failure_cleanup_witness :
    sAfterFaucetFail.provider = none ∧ sAfterFaucetFail.application = none
    ∧ sAfterFaucetFail.currentWalletAddress = none
    ∧ sAfterFaucetFail.connectPromise = none
    ∧ sAfterFaucetFail.isConnecting = false
    ∧ getConnectionStatus sAfterFaucetFail = ConnStatus.disconnected
    ∧ ∃ msg, "Failed to connect to Linera network: boom"
        = "Failed to connect to Linera network: " ++ msg :=
  connect_failure_cleanup AdapterState.initial "0xabc" envFaucetFail 5
    sAfterFaucetFail "Failed to connect to Linera network: boom" Effects.nil
    (by decide)

end C9

section C10

open LineraAdapter

/-- C10: `queryApplication` and `mutateApplication` never change the
adapter state; each throws exactly when the application is unset or the
parsed response carries a non-empty `errors` array; and otherwise each
returns the parsed response unchanged. -/
theorem queryApplication_error_iff (s : AdapterState)
    (resp : GraphQLResponse) :
    ((queryApplication s resp).1 = s ∧ (mutateApplication s resp).1 = s)
    ∧ ((∃ e, (queryApplication s resp).2 = Except.error e)
        ↔ s.application = none ∨ ∃ es, resp.errors = some es ∧ es ≠ [])
    ∧ ((∃ e, (mutateApplication s resp).2 = Except.error e)
        ↔ s.application = none ∨ ∃ es, resp.errors = some es ∧ es ≠ [])
    ∧ (s.application ≠ none → resp.errors = none ∨ resp.errors = some [] →
        (queryApplication s resp).2 = Except.ok resp
        ∧ (mutateApplication s resp).2 = Except.ok resp) := by
  cases ha : s.application with
  | none =>
    cases he : resp.errors <;>
      simp [queryApplication, mutateApplication, ha, he]
  | some app =>
    cases he : resp.errors with
    | none => simp [queryApplication, mutateApplication, ha, he]
    | some es =>
      cases es with
      | nil => simp [queryApplication, mutateApplication, ha, he]
      | cons e es =>
        simp [queryApplication, mutateApplication, ha, he]

/-- C10 (witness): the success clause of the theorem at the connected
fixture with an error-free response. -/
theorem queryApplication_ok_witness :
    (queryApplication sConnected respOk).2 = Except.ok respOk
    ∧ (mutateApplication sConnected respOk).2 = Except.ok respOk :=
  (queryApplication_error_iff sConnected respOk).2.2.2 (by decide)
    (Or.inl rfl)

end C10
